import Mathlib

/-!
Shallow embedding of the ankercloud-monitoring metrics ingestion,
query, incident-lifecycle and live-feed subsystem.

Sources embedded here:
- the SQL schema and the `get_resource_status` plpgsql function
  (database schema file);
- the ingestion routes `POST /server`, `POST /website`, `POST /network`,
  `POST /batch` (routes/ingest.ts);
- the metrics query routes `GET /:resourceId` (server branch) and
  `POST /latest` (routes/metrics.ts);
- the incident action routes `POST /incidents/:id/acknowledge` and
  `POST /incidents/:id/resolve` (routes/alerts.ts);
- the `/metrics` websocket handler (routes/websocket.ts).

Modelling conventions: timestamps are integers (seconds), metric values
are rationals, uuid columns are naturals.  The database is a record of
lists of rows, threaded through each route handler explicitly.  API-key
resolution (a bcrypt scan over the api_keys table) is modelled as an
oracle record saying whether a key header was present, whether it
matched an active unexpired key, and which user it resolved to.  The
redis `addToStream` publish can throw; its success is a boolean
parameter of the route, and emitted stream entries are returned
alongside the response.  The two wall clocks involved (SQL `NOW()` and
`new Date()`) are a single `now` parameter.
-/

/-- `resource_type` enum of the schema. -/
inductive ResourceType where
  | server | website | network | database
deriving DecidableEq, Repr

/-- `resource_status` enum of the schema. -/
inductive ResourceStatus where
  | online | offline | warning | critical | unknown
deriving DecidableEq, Repr

/-- `alert_state` enum of the schema. -/
inductive AlertState where
  | active | resolved | acknowledged
deriving DecidableEq, Repr

/-- `alert_severity` enum of the schema. -/
inductive AlertSeverity where
  | info | warning | critical
deriving DecidableEq, Repr

/-- A row of the `resources` table (the columns the embedded routes touch). -/
structure ResourceRow where
  id : Nat
  userId : Nat
  rtype : ResourceType
  name : String
  status : ResourceStatus
  isActive : Bool
  lastSeenAt : Option Int
deriving DecidableEq, Repr

/-- A row of the `server_metrics` hypertable (all 16 columns of the
ingest INSERT).  The table has no primary key or unique constraint. -/
structure ServerMetricRow where
  time : Int
  resourceId : Nat
  cpuUsagePercent : ℚ
  memoryUsedMb : ℚ
  memoryTotalMb : ℚ
  memoryUsagePercent : ℚ
  diskUsedMb : ℚ
  diskTotalMb : ℚ
  diskUsagePercent : ℚ
  networkInBytes : ℚ
  networkOutBytes : ℚ
  processCount : ℚ
  loadAvg1m : Option ℚ
  loadAvg5m : Option ℚ
  loadAvg15m : Option ℚ
  uptimeSeconds : ℚ
deriving DecidableEq, Repr

/-- A row of the `website_metrics` hypertable. -/
structure WebsiteMetricRow where
  time : Int
  resourceId : Nat
  statusCode : ℚ
  responseTimeMs : ℚ
  dnsTimeMs : Option ℚ
  connectTimeMs : Option ℚ
  tlsTimeMs : Option ℚ
  ttfbMs : Option ℚ
  totalTimeMs : ℚ
  contentSizeBytes : Option ℚ
  isAvailable : Bool
  errorMessage : Option String
  location : String
deriving DecidableEq, Repr

/-- A row of the `network_metrics` hypertable. -/
structure NetworkMetricRow where
  time : Int
  resourceId : Nat
  checkType : String
  latencyMs : Option ℚ
  packetLossPercent : Option ℚ
  isAvailable : Bool
  hopCount : Option ℚ
  errorMessage : Option String
deriving DecidableEq, Repr

/-- A row of the `process_metrics` hypertable. -/
structure ProcessMetricRow where
  time : Int
  resourceId : Nat
  processName : String
  pid : ℚ
  cpuPercent : ℚ
  memoryMb : ℚ
  status : String
deriving DecidableEq, Repr

/-- A row of the `service_metrics` hypertable. -/
structure ServiceMetricRow where
  time : Int
  resourceId : Nat
  serviceName : String
  status : String
  startupType : Option String
deriving DecidableEq, Repr

/-- A row of the `servers` table (the columns the ingest UPDATE touches). -/
structure ServerInfoRow where
  resourceId : Nat
  agentLastSeen : Option Int
  cpuCores : Option ℚ
  totalMemoryMb : Option ℚ
  totalDiskMb : Option ℚ
deriving DecidableEq, Repr

/-- A row of the `alert_policies` table. -/
structure AlertPolicyRow where
  id : Nat
  userId : Nat
  resourceId : Nat
  metricName : String
  condition : String
  threshold : ℚ
  durationSeconds : Int
  severity : AlertSeverity
  isActive : Bool
deriving DecidableEq, Repr

/-- A row of the `incidents` table. -/
structure IncidentRow where
  id : Nat
  alertPolicyId : Nat
  resourceId : Nat
  state : AlertState
  severity : AlertSeverity
  triggeredValue : ℚ
  triggeredAt : Int
  resolvedAt : Option Int
  acknowledgedAt : Option Int
  acknowledgedBy : Option Nat
  notes : Option String
deriving DecidableEq, Repr

/-- A row of the `incident_history` append log. -/
structure IncidentHistoryRow where
  incidentId : Nat
  action : String
  performedBy : Nat
  detailNotes : Option String
deriving DecidableEq, Repr

/-- The database state threaded through the route handlers. -/
structure Db where
  resources : List ResourceRow
  servers : List ServerInfoRow
  serverMetrics : List ServerMetricRow
  processMetrics : List ProcessMetricRow
  serviceMetrics : List ServiceMetricRow
  websiteMetrics : List WebsiteMetricRow
  networkMetrics : List NetworkMetricRow
  alertPolicies : List AlertPolicyRow
  incidents : List IncidentRow
  incidentHistory : List IncidentHistoryRow
deriving DecidableEq, Repr

/-- Result of `validateApiKey` plus header presence, modelled as an
oracle (the bcrypt scan over `api_keys` is external to the embedding). -/
structure AuthCtx where
  keyPresent : Bool
  keyValid : Bool
  userId : Nat
deriving DecidableEq, Repr

/-- Fold step selecting the row with the later timestamp (the earlier
candidate wins ties). -/
def pickLater (acc : Option ServerMetricRow) (s : ServerMetricRow) :
    Option ServerMetricRow :=
  match acc with
  | none => some s
  | some a => if s.time > a.time then some s else acc

/-- `ORDER BY time DESC LIMIT 1` over server-metric rows: the row with
the maximal `time` (first inserted wins among equal times). -/
def latestServerRow (rows : List ServerMetricRow) : Option ServerMetricRow :=
  rows.foldl pickLater none

/-- The rows of `server_metrics` for one resource with
`time > NOW() - INTERVAL '5 minutes'` (5 minutes = 300 seconds). -/
def freshServerRows (rows : List ServerMetricRow) (rid : Nat) (now : Int) :
    List ServerMetricRow :=
  rows.filter (fun s => decide (s.resourceId = rid ∧ now - 300 < s.time))

/-- The threshold cascade of `get_resource_status`: any of cpu / memory /
disk usage percent above 90 is critical, above 75 is warning, else online. -/
def serverBands (m : ServerMetricRow) : ResourceStatus :=
  if 90 < m.cpuUsagePercent ∨ 90 < m.memoryUsagePercent ∨ 90 < m.diskUsagePercent then
    ResourceStatus.critical
  else if 75 < m.cpuUsagePercent ∨ 75 < m.memoryUsagePercent ∨ 75 < m.diskUsagePercent then
    ResourceStatus.warning
  else
    ResourceStatus.online

/-- The plpgsql function `get_resource_status(p_resource_id)`: the latest
`server_metrics` row of the last 5 minutes decides the status via the
threshold cascade; with no such row the status is `unknown`. -/
def get_resource_status (rows : List ServerMetricRow) (rid : Nat) (now : Int) :
    ResourceStatus :=
  match latestServerRow (freshServerRows rows rid now) with
  | none => ResourceStatus.unknown
  | some m => serverBands m

/-- An entry of the optional `processes` array of the server body
(`none` in the JSON is the empty list here). -/
structure ProcessEntry where
  name : String
  pid : ℚ
  cpuPercent : ℚ
  memoryMb : ℚ
  status : String
deriving DecidableEq, Repr

/-- An entry of the optional `services` array of the server body. -/
structure ServiceEntry where
  name : String
  status : String
  startupType : Option String
deriving DecidableEq, Repr

/-- Parsed body of `POST /ingest/server` (fields of `serverMetricsSchema`;
the wrapping `metrics` object is flattened). -/
structure ServerMetricsBody where
  resourceId : Nat
  cpuUsagePercent : ℚ
  memoryUsedMb : ℚ
  memoryTotalMb : ℚ
  memoryUsagePercent : ℚ
  diskUsedMb : ℚ
  diskTotalMb : ℚ
  diskUsagePercent : ℚ
  networkInBytes : ℚ
  networkOutBytes : ℚ
  processCount : ℚ
  loadAvg1m : Option ℚ
  loadAvg5m : Option ℚ
  loadAvg15m : Option ℚ
  uptimeSeconds : ℚ
  processes : List ProcessEntry
  services : List ServiceEntry
  timestamp : Option Int
deriving DecidableEq, Repr

/-- Parsed body of `POST /ingest/website` (fields of `websiteMetricsSchema`). -/
structure WebsiteMetricsBody where
  resourceId : Nat
  statusCode : ℚ
  responseTimeMs : ℚ
  dnsTimeMs : Option ℚ
  connectTimeMs : Option ℚ
  tlsTimeMs : Option ℚ
  ttfbMs : Option ℚ
  totalTimeMs : ℚ
  contentSizeBytes : Option ℚ
  isAvailable : Bool
  errorMessage : Option String
  location : Option String
  timestamp : Option Int
deriving DecidableEq, Repr

/-- Parsed body of `POST /ingest/network` (fields of `networkMetricsSchema`). -/
structure NetworkMetricsBody where
  resourceId : Nat
  checkType : String
  latencyMs : Option ℚ
  packetLossPercent : Option ℚ
  isAvailable : Bool
  hopCount : Option ℚ
  errorMessage : Option String
  timestamp : Option Int
deriving DecidableEq, Repr

/-- The range constraints of `serverMetricsSchema` (`z.number().min(0).max(100)`
on the three usage percentages; the remaining checks are shape/type checks,
absorbed by the typed embedding). -/
def validServerBody (b : ServerMetricsBody) : Prop :=
  0 ≤ b.cpuUsagePercent ∧ b.cpuUsagePercent ≤ 100 ∧
  0 ≤ b.memoryUsagePercent ∧ b.memoryUsagePercent ≤ 100 ∧
  0 ≤ b.diskUsagePercent ∧ b.diskUsagePercent ≤ 100

instance (b : ServerMetricsBody) : Decidable (validServerBody b) := by
  unfold validServerBody; infer_instance

/-- Responses of the ingest routes. -/
inductive IngestResult where
  /-- `200 { status: 'ok', timestamp }` -/
  | ok (timestamp : Int)
  /-- `401 { error: 'API key required' }` -/
  | apiKeyRequired
  /-- `401 { error: 'Invalid API key' }` -/
  | invalidApiKey
  /-- `404 { error: 'Resource not found' }` -/
  | resourceNotFound
  /-- `400 { error: 'Validation error', details }` -/
  | validationFailed
  /-- `500 { error: 'Internal server error' }` -/
  | internalError
deriving DecidableEq, Repr

/-- The HTTP status code of each ingest response. -/
def IngestResult.code : IngestResult → Nat
  | .ok _ => 200
  | .apiKeyRequired => 401
  | .invalidApiKey => 401
  | .resourceNotFound => 404
  | .validationFailed => 400
  | .internalError => 500

/-- A redis stream entry `metrics:server:<rid>` published by the server
ingest route (field values before string serialisation). -/
structure ServerStreamEntry where
  resourceId : Nat
  cpu : ℚ
  memory : ℚ
  disk : ℚ
  timestamp : Int
deriving DecidableEq, Repr

/-- A redis stream entry `metrics:website:<rid>`. -/
structure WebsiteStreamEntry where
  resourceId : Nat
  status : ℚ
  responseTime : ℚ
  available : Bool
  timestamp : Int
deriving DecidableEq, Repr

/-- A redis stream entry `metrics:network:<rid>`. -/
structure NetworkStreamEntry where
  resourceId : Nat
  checkType : String
  latency : ℚ
  available : Bool
  timestamp : Int
deriving DecidableEq, Repr

/-- The `server_metrics` row the ingest INSERT builds from a request body
and its effective timestamp `body.timestamp || new Date()`. -/
def serverRowOfBody (body : ServerMetricsBody) (ts : Int) : ServerMetricRow :=
  { time := ts, resourceId := body.resourceId,
    cpuUsagePercent := body.cpuUsagePercent,
    memoryUsedMb := body.memoryUsedMb, memoryTotalMb := body.memoryTotalMb,
    memoryUsagePercent := body.memoryUsagePercent,
    diskUsedMb := body.diskUsedMb, diskTotalMb := body.diskTotalMb,
    diskUsagePercent := body.diskUsagePercent,
    networkInBytes := body.networkInBytes,
    networkOutBytes := body.networkOutBytes,
    processCount := body.processCount,
    loadAvg1m := body.loadAvg1m, loadAvg5m := body.loadAvg5m,
    loadAvg15m := body.loadAvg15m, uptimeSeconds := body.uptimeSeconds }

/-- The database writes of the server ingest success path, in statement
order: INSERT into `server_metrics`, `process_metrics`, `service_metrics`;
UPDATE `resources` (unconditional `last_seen_at = timestamp`, status from
`get_resource_status` over the metrics including the new row, at wall-clock
`now`); UPDATE `servers`. -/
def serverIngestWrites (db : Db) (body : ServerMetricsBody) (now : Int) : Db :=
  let ts := body.timestamp.getD now
  let newMetrics := db.serverMetrics ++ [serverRowOfBody body ts]
  let newProcess := db.processMetrics ++ body.processes.map (fun p =>
    { time := ts, resourceId := body.resourceId, processName := p.name,
      pid := p.pid, cpuPercent := p.cpuPercent, memoryMb := p.memoryMb,
      status := p.status })
  let newService := db.serviceMetrics ++ body.services.map (fun s =>
    { time := ts, resourceId := body.resourceId, serviceName := s.name,
      status := s.status, startupType := s.startupType })
  let newStatus := get_resource_status newMetrics body.resourceId now
  let newResources := db.resources.map (fun r =>
    if r.id = body.resourceId then
      { r with lastSeenAt := some ts, status := newStatus }
    else r)
  let newServers := db.servers.map (fun s =>
    if s.resourceId = body.resourceId then
      { s with agentLastSeen := some ts,
               cpuCores := some (s.cpuCores.getD body.processCount),
               totalMemoryMb := some body.memoryTotalMb,
               totalDiskMb := some body.diskTotalMb }
    else s)
  { db with serverMetrics := newMetrics, processMetrics := newProcess,
            serviceMetrics := newService, resources := newResources,
            servers := newServers }

/-- The stream entry the server route publishes. -/
def serverStreamOfBody (body : ServerMetricsBody) (ts : Int) : ServerStreamEntry :=
  { resourceId := body.resourceId, cpu := body.cpuUsagePercent,
    memory := body.memoryUsagePercent, disk := body.diskUsagePercent,
    timestamp := ts }

/-- `POST /ingest/server`.  Checks run in source order: key header,
`validateApiKey`, `serverMetricsSchema.parse`, resource ownership.  Then the
writes of `serverIngestWrites` and the stream publish.  Each statement
commits on its own (no transaction), so a failing publish leaves all
database writes in place while the route's catch returns the 500 response. -/
def postIngestServer (db : Db) (auth : AuthCtx) (body : ServerMetricsBody)
    (now : Int) (publishOk : Bool) :
    IngestResult × Db × List ServerStreamEntry :=
  if ¬ auth.keyPresent then (.apiKeyRequired, db, [])
  else if ¬ auth.keyValid then (.invalidApiKey, db, [])
  else if ¬ validServerBody body then (.validationFailed, db, [])
  else if ¬ ∃ r ∈ db.resources, r.id = body.resourceId ∧
      r.userId = auth.userId ∧ r.rtype = ResourceType.server then
    (.resourceNotFound, db, [])
  else
    let ts := body.timestamp.getD now
    let db1 := serverIngestWrites db body now
    if publishOk then
      (.ok ts, db1, [serverStreamOfBody body ts])
    else
      (.internalError, db1, [])

/-- The database writes of the website ingest success path: INSERT into
`website_metrics`, then UPDATE `resources` with `last_seen_at = timestamp`
and `status` equal to `online`/`offline` from the arriving sample's
`isAvailable` flag (no `get_resource_status` call, no threshold banding). -/
def websiteIngestWrites (db : Db) (body : WebsiteMetricsBody) (now : Int) : Db :=
  let ts := body.timestamp.getD now
  let row : WebsiteMetricRow :=
    { time := ts, resourceId := body.resourceId, statusCode := body.statusCode,
      responseTimeMs := body.responseTimeMs, dnsTimeMs := body.dnsTimeMs,
      connectTimeMs := body.connectTimeMs, tlsTimeMs := body.tlsTimeMs,
      ttfbMs := body.ttfbMs, totalTimeMs := body.totalTimeMs,
      contentSizeBytes := body.contentSizeBytes,
      isAvailable := body.isAvailable, errorMessage := body.errorMessage,
      location := body.location.getD "default" }
  let newStatus :=
    if body.isAvailable then ResourceStatus.online else ResourceStatus.offline
  let newResources := db.resources.map (fun r =>
    if r.id = body.resourceId then
      { r with lastSeenAt := some ts, status := newStatus }
    else r)
  { db with websiteMetrics := db.websiteMetrics ++ [row],
            resources := newResources }

/-- `POST /ingest/website`.  Key checks, schema parse (only type checks,
absorbed by the typing), ownership check, then the writes of
`websiteIngestWrites` and the stream publish. -/
def postIngestWebsite (db : Db) (auth : AuthCtx) (body : WebsiteMetricsBody)
    (now : Int) (publishOk : Bool) :
    IngestResult × Db × List WebsiteStreamEntry :=
  if ¬ auth.keyPresent then (.apiKeyRequired, db, [])
  else if ¬ auth.keyValid then (.invalidApiKey, db, [])
  else if ¬ ∃ r ∈ db.resources, r.id = body.resourceId ∧
      r.userId = auth.userId ∧ r.rtype = ResourceType.website then
    (.resourceNotFound, db, [])
  else
    let ts := body.timestamp.getD now
    let db1 := websiteIngestWrites db body now
    if publishOk then
      (.ok ts, db1,
        [{ resourceId := body.resourceId, status := body.statusCode,
           responseTime := body.responseTimeMs, available := body.isAvailable,
           timestamp := ts }])
    else
      (.internalError, db1, [])

/-- The database writes of the network ingest success path: INSERT into
`network_metrics`, then UPDATE `resources` with `last_seen_at = timestamp`
and `status` equal to `online`/`offline` from the arriving sample's
`isAvailable` flag. -/
def networkIngestWrites (db : Db) (body : NetworkMetricsBody) (now : Int) : Db :=
  let ts := body.timestamp.getD now
  let row : NetworkMetricRow :=
    { time := ts, resourceId := body.resourceId, checkType := body.checkType,
      latencyMs := body.latencyMs, packetLossPercent := body.packetLossPercent,
      isAvailable := body.isAvailable, hopCount := body.hopCount,
      errorMessage := body.errorMessage }
  let newStatus :=
    if body.isAvailable then ResourceStatus.online else ResourceStatus.offline
  let newResources := db.resources.map (fun r =>
    if r.id = body.resourceId then
      { r with lastSeenAt := some ts, status := newStatus }
    else r)
  { db with networkMetrics := db.networkMetrics ++ [row],
            resources := newResources }

/-- `POST /ingest/network`.  Analogous to the website route. -/
def postIngestNetwork (db : Db) (auth : AuthCtx) (body : NetworkMetricsBody)
    (now : Int) (publishOk : Bool) :
    IngestResult × Db × List NetworkStreamEntry :=
  if ¬ auth.keyPresent then (.apiKeyRequired, db, [])
  else if ¬ auth.keyValid then (.invalidApiKey, db, [])
  else if ¬ ∃ r ∈ db.resources, r.id = body.resourceId ∧
      r.userId = auth.userId ∧ r.rtype = ResourceType.network then
    (.resourceNotFound, db, [])
  else
    let ts := body.timestamp.getD now
    let db1 := networkIngestWrites db body now
    if publishOk then
      (.ok ts, db1,
        [{ resourceId := body.resourceId, checkType := body.checkType,
           latency := body.latencyMs.getD 0, available := body.isAvailable,
           timestamp := ts }])
    else
      (.internalError, db1, [])

/-- An entry of the `metrics` array of `POST /ingest/batch`; the route only
inspects its `type` field. -/
structure BatchEntry where
  btype : String
deriving DecidableEq, Repr

/-- Responses of the batch route. -/
inductive BatchResult where
  | ok (processed errors total : Nat)
  | apiKeyRequired
  | invalidApiKey
  | metricsArrayRequired
deriving DecidableEq, Repr

/-- `POST /ingest/batch`.  After the key checks, every entry of type
`server`/`website`/`network` merely increments `processed` (the bodies of
those branches are comments); anything else increments `errors`.  Nothing
is written to the database and nothing is published. -/
def postIngestBatch (db : Db) (auth : AuthCtx)
    (metrics : Option (List BatchEntry)) :
    BatchResult × Db × List ServerStreamEntry :=
  if ¬ auth.keyPresent then (.apiKeyRequired, db, [])
  else if ¬ auth.keyValid then (.invalidApiKey, db, [])
  else
    match metrics with
    | none => (.metricsArrayRequired, db, [])
    | some ms =>
      let processed := ms.countP (fun m =>
        decide (m.btype = "server" ∨ m.btype = "website" ∨ m.btype = "network"))
      (.ok processed (ms.length - processed) ms.length, db, [])

/-- `time_bucket(width, time)`: the start of the aligned bucket containing
`time` (floor division, as for timescaledb's origin-aligned buckets). -/
def timeBucket (width t : Int) : Int :=
  (Int.ediv t width) * width

/-- SQL `AVG` over a group of values (groups are nonempty by construction). -/
def sqlAvg (l : List ℚ) : ℚ :=
  l.sum / l.length

/-- SQL `MIN` over a group of values. -/
def sqlMin (l : List ℚ) : Option ℚ :=
  match l with
  | [] => none
  | v :: vs => some (vs.foldl min v)

/-- SQL `MAX` over a group of values. -/
def sqlMax (l : List ℚ) : Option ℚ :=
  match l with
  | [] => none
  | v :: vs => some (vs.foldl max v)

/-- The `cpu_usage_percent` values of one group of the `server_metrics_1h`
continuous aggregate (`GROUP BY time_bucket('1 hour', time), resource_id`). -/
def hourBucketCpu (rows : List ServerMetricRow) (rid : Nat) (b : Int) : List ℚ :=
  (rows.filter (fun s => decide (s.resourceId = rid ∧ timeBucket 3600 s.time = b))).map
    (·.cpuUsagePercent)

/-- `avg_cpu` of the `server_metrics_1h` aggregate row for one bucket. -/
def hourAvgCpu (rows : List ServerMetricRow) (rid : Nat) (b : Int) : ℚ :=
  sqlAvg (hourBucketCpu rows rid b)

/-- `min_cpu` of the `server_metrics_1h` aggregate row for one bucket. -/
def hourMinCpu (rows : List ServerMetricRow) (rid : Nat) (b : Int) : Option ℚ :=
  sqlMin (hourBucketCpu rows rid b)

/-- `max_cpu` of the `server_metrics_1h` aggregate row for one bucket. -/
def hourMaxCpu (rows : List ServerMetricRow) (rid : Nat) (b : Int) : Option ℚ :=
  sqlMax (hourBucketCpu rows rid b)

/-- One output row of the server branch of `GET /metrics/:resourceId`. -/
structure ServerBucketRow where
  bucket : Int
  cpu : ℚ
  memoryMb : ℚ
  diskMb : ℚ
deriving DecidableEq, Repr

/-- The `server_metrics` rows of one resource restricted to
`time >= startTime AND time <= endTime`. -/
def rowsInRange (rows : List ServerMetricRow) (rid : Nat) (tStart tEnd : Int) :
    List ServerMetricRow :=
  rows.filter (fun s => decide (s.resourceId = rid ∧ tStart ≤ s.time ∧ s.time ≤ tEnd))

/-- The server branch of `GET /metrics/:resourceId`: group the rows of
`[startTime, endTime]` by `time_bucket(interval, time)`, average cpu /
memory / disk per bucket, `ORDER BY bucket ASC`. -/
def serverRangeQuery (rows : List ServerMetricRow) (rid : Nat)
    (tStart tEnd width : Int) : List ServerBucketRow :=
  let within := rowsInRange rows rid tStart tEnd
  let buckets :=
    List.insertionSort (· ≤ ·) ((within.map (fun s => timeBucket width s.time)).dedup)
  buckets.map (fun b =>
    let grp := within.filter (fun s => decide (timeBucket width s.time = b))
    { bucket := b,
      cpu := sqlAvg (grp.map (·.cpuUsagePercent)),
      memoryMb := sqlAvg (grp.map (·.memoryUsedMb)),
      diskMb := sqlAvg (grp.map (·.diskUsedMb)) })

/-- One value of the `latestMetrics` map of `POST /metrics/latest` (the
fields assembled for a server row; missing columns default as in the
route's `?? 0` fallbacks). -/
structure LatestEntry where
  name : String
  rtype : ResourceType
  cpuUsagePercent : ℚ
  memoryUsedMb : ℚ
  memoryTotalMb : ℚ
  diskUsedMb : ℚ
  diskTotalMb : ℚ
  time : Int
deriving DecidableEq, Repr

/-- `POST /metrics/latest` restricted to server resources: for each
requested id owned by the caller (or any id for an admin), take the
`server_metrics` row with maximal `time` — with no freshness condition —
and emit an entry; ids with no metric rows are absent. -/
def postMetricsLatest (db : Db) (userId : Nat) (isAdmin : Bool)
    (resourceIds : List Nat) : List (Nat × LatestEntry) :=
  let valid := db.resources.filter (fun r =>
    decide (r.id ∈ resourceIds ∧ (isAdmin ∨ r.userId = userId) ∧
      r.rtype = ResourceType.server))
  valid.filterMap (fun r =>
    match latestServerRow (db.serverMetrics.filter (fun s => decide (s.resourceId = r.id))) with
    | none => none
    | some row =>
      some (r.id,
        { name := r.name, rtype := r.rtype,
          cpuUsagePercent := row.cpuUsagePercent,
          memoryUsedMb := row.memoryUsedMb, memoryTotalMb := row.memoryTotalMb,
          diskUsedMb := row.diskUsedMb, diskTotalMb := row.diskTotalMb,
          time := row.time }))

/-- `COALESCE(notes || E'\n' || $new, $new)`: appending to the free-text
notes column.  SQL string concatenation with NULL is NULL, so a NULL
`new` wipes the column and a NULL old column is replaced by `new`. -/
def coalesceNotes (old new : Option String) : Option String :=
  match new with
  | none => none
  | some n =>
    match old with
    | none => some n
    | some o => some (o ++ "\n" ++ n)

/-- Responses of the incident action routes. -/
inductive IncidentActionResult where
  /-- `200 { message }` -/
  | ok
  /-- `404 { error: 'Incident not found' }` -/
  | incidentNotFound
deriving DecidableEq, Repr

/-- The ownership check shared by both incident action routes: the incident
exists and its policy belongs to the caller. -/
def ownsIncident (db : Db) (userId incidentId : Nat) : Prop :=
  ∃ i ∈ db.incidents, i.id = incidentId ∧
    ∃ p ∈ db.alertPolicies, p.id = i.alertPolicyId ∧ p.userId = userId

instance (db : Db) (userId incidentId : Nat) :
    Decidable (ownsIncident db userId incidentId) := by
  unfold ownsIncident; infer_instance

/-- `POST /incidents/:id/acknowledge`: after the ownership check, the UPDATE
runs unconditionally — no precondition on the current state — setting
`state = 'acknowledged'`, `acknowledged_at = NOW()`, `acknowledged_by`, the
notes coalesce, and appending a history row. -/
def postIncidentAcknowledge (db : Db) (userId incidentId : Nat)
    (notes : Option String) (now : Int) : IncidentActionResult × Db :=
  if ¬ ownsIncident db userId incidentId then (.incidentNotFound, db)
  else
    let newIncidents := db.incidents.map (fun i =>
      if i.id = incidentId then
        { i with state := AlertState.acknowledged,
                 acknowledgedAt := some now,
                 acknowledgedBy := some userId,
                 notes := coalesceNotes i.notes notes }
      else i)
    let hist : IncidentHistoryRow :=
      { incidentId := incidentId, action := "acknowledged",
        performedBy := userId, detailNotes := notes }
    (.ok, { db with incidents := newIncidents,
                    incidentHistory := db.incidentHistory ++ [hist] })

/-- `POST /incidents/:id/resolve`: after the ownership check, the UPDATE runs
unconditionally — no precondition on the current state — setting
`state = 'resolved'` and `resolved_at = NOW()` (overwriting any earlier
value), the notes coalesce, and appending a history row. -/
def postIncidentResolve (db : Db) (userId incidentId : Nat)
    (notes : Option String) (now : Int) : IncidentActionResult × Db :=
  if ¬ ownsIncident db userId incidentId then (.incidentNotFound, db)
  else
    let newIncidents := db.incidents.map (fun i =>
      if i.id = incidentId then
        { i with state := AlertState.resolved,
                 resolvedAt := some now,
                 notes := coalesceNotes i.notes notes }
      else i)
    let hist : IncidentHistoryRow :=
      { incidentId := incidentId, action := "resolved",
        performedBy := userId, detailNotes := notes }
    (.ok, { db with incidents := newIncidents,
                    incidentHistory := db.incidentHistory ++ [hist] })

/-- A parsed JSON message arriving on the `/metrics` websocket, keyed by its
`type` field.  `auth` carries whether `fastify.jwt.verify(data.token)`
succeeds, and the user id it decodes to. -/
inductive WsMsg where
  | auth (tokenValid : Bool) (userId : Nat)
  | subscribe (resourceType : String) (resourceId : Nat)
  | unsubscribe (resourceType : String) (resourceId : Nat)
  | ping
  | otherType
deriving DecidableEq, Repr

/-- Whether a message is an auth message (the first branch of the handler's
dispatch). -/
def WsMsg.isAuth : WsMsg → Bool
  | .auth _ _ => true
  | _ => false

/-- Messages the `/metrics` handler sends back on one socket. -/
inductive WsOut where
  | connected
  | authSuccess (userId : Nat)
  | authInvalidToken
  /-- `{ type: 'error', message: 'Not authenticated' }` -/
  | notAuthenticated
  | subscribed (resourceType : String) (resourceId : Nat)
  | unsubscribed (resourceType : String) (resourceId : Nat)
  | pong
deriving DecidableEq, Repr

/-- Connection-local state of the `/metrics` handler: the `authenticated`
flag, the `subscriptions` array of stream keys, and whether the server has
called `socket.close()`. -/
structure WsState where
  authenticated : Bool
  userId : Option Nat
  subscriptions : List (String × Nat)
  closed : Bool
deriving DecidableEq, Repr

/-- The state right after the connection opens (the handler greets with a
`connected` message). -/
def wsInit : WsState :=
  { authenticated := false, userId := none, subscriptions := [], closed := false }

/-- One turn of the `/metrics` message handler, following the source's
dispatch order: `auth` first; then the `!authenticated` guard, which replies
`Not authenticated` and closes for every non-auth message — `subscribe`,
`unsubscribe`, `ping` and unknown types are only reachable once
authenticated.  A closed socket processes nothing. -/
def wsStep (s : WsState) (m : WsMsg) : WsState × List WsOut :=
  if s.closed then (s, [])
  else
    match m with
    | .auth tokenValid uid =>
      if tokenValid then
        ({ s with authenticated := true, userId := some uid },
         [.authSuccess uid])
      else
        ({ s with closed := true }, [.authInvalidToken])
    | m' =>
      if ¬ s.authenticated then
        ({ s with closed := true }, [.notAuthenticated])
      else
        match m' with
        | .subscribe t rid =>
          if (t, rid) ∈ s.subscriptions then (s, [])
          else ({ s with subscriptions := s.subscriptions ++ [(t, rid)] },
                [.subscribed t rid])
        | .unsubscribe t rid =>
          if (t, rid) ∈ s.subscriptions then
            ({ s with subscriptions := s.subscriptions.erase (t, rid) },
             [.unsubscribed t rid])
          else (s, [])
        | .ping => (s, [.pong])
        | _ => (s, [])

/-- Run the handler over a list of incoming messages, collecting every
outgoing message in order. -/
def wsRun (s : WsState) : List WsMsg → WsState × List WsOut
  | [] => (s, [])
  | m :: ms =>
    ((wsRun (wsStep s m).1 ms).1, (wsStep s m).2 ++ (wsRun (wsStep s m).1 ms).2)

/-- Whether a message is an auth message carrying a token that verifies. -/
def WsMsg.isValidAuth : WsMsg → Bool
  | .auth v _ => v
  | _ => false

/-!
Concrete fixtures used by witnesses and counterexamples.
-/

/-- An empty database. -/
def dbEmpty : Db :=
  { resources := [], servers := [], serverMetrics := [], processMetrics := [],
    serviceMetrics := [], websiteMetrics := [], networkMetrics := [],
    alertPolicies := [], incidents := [], incidentHistory := [] }

/-- A server resource with id 1 owned by user 7. -/
def resServer1 : ResourceRow :=
  { id := 1, userId := 7, rtype := ResourceType.server, name := "srv",
    status := ResourceStatus.unknown, isActive := true, lastSeenAt := none }

/-- A database holding just the server resource. -/
def dbServer1 : Db :=
  { dbEmpty with resources := [resServer1] }

/-- A present, valid API key resolving to user 7. -/
def authOk : AuthCtx :=
  { keyPresent := true, keyValid := true, userId := 7 }

/-- A server ingest body for resource 1 with the given cpu percentage and
explicit timestamp; the other usage percentages sit far below every
threshold. -/
def bodyCpu (c : ℚ) (t : Option Int) : ServerMetricsBody :=
  { resourceId := 1, cpuUsagePercent := c, memoryUsedMb := 512,
    memoryTotalMb := 1024, memoryUsagePercent := 50, diskUsedMb := 10,
    diskTotalMb := 100, diskUsagePercent := 10, networkInBytes := 0,
    networkOutBytes := 0, processCount := 5, loadAvg1m := none,
    loadAvg5m := none, loadAvg15m := none, uptimeSeconds := 99,
    processes := [], services := [], timestamp := t }

/-- An active `gt 90` policy of user 7 on the cpu metric of resource 1. -/
def policy1 : AlertPolicyRow :=
  { id := 1, userId := 7, resourceId := 1, metricName := "cpuUsagePercent",
    condition := "gt", threshold := 90, durationSeconds := 300,
    severity := AlertSeverity.warning, isActive := true }

/-- An incident of policy 1 that is already resolved, at time 5. -/
def resolvedIncident : IncidentRow :=
  { id := 2, alertPolicyId := 1, resourceId := 1, state := AlertState.resolved,
    severity := AlertSeverity.warning, triggeredValue := 95, triggeredAt := 3,
    resolvedAt := some 5, acknowledgedAt := none, acknowledgedBy := none,
    notes := none }

/-- A database holding the resource, the policy and the resolved incident. -/
def dbResolved : Db :=
  { dbEmpty with resources := [resServer1], alertPolicies := [policy1],
                 incidents := [resolvedIncident] }

/-- A database holding the resource and the active policy, no incidents. -/
def dbPolicy : Db :=
  { dbEmpty with resources := [resServer1], alertPolicies := [policy1] }

/-- A minimal server-metric row for resource 1 with a given cpu value and
time. -/
def rowCpuEx (c : ℚ) (t : Int) : ServerMetricRow :=
  { time := t, resourceId := 1, cpuUsagePercent := c, memoryUsedMb := 1,
    memoryTotalMb := 2, memoryUsagePercent := 50, diskUsedMb := 1,
    diskTotalMb := 2, diskUsagePercent := 50, networkInBytes := 0,
    networkOutBytes := 0, processCount := 3, loadAvg1m := none,
    loadAvg5m := none, loadAvg15m := none, uptimeSeconds := 7 }

/-- A database whose only server sample for resource 1 is very old
(time 0). -/
def staleDb : Db :=
  { dbEmpty with resources := [resServer1], serverMetrics := [rowCpuEx 42 0] }

/-- The database after ingesting a sample stamped t=100 followed by a valid
sample stamped t=50 for the same resource (wall clock at 200 for both
calls, both within the freshness horizon). -/
def outOfOrderRun (c1 c2 : ℚ) : Db :=
  (postIngestServer
    (postIngestServer dbServer1 authOk (bodyCpu c1 (some 100)) 200 true).2.1
    authOk (bodyCpu c2 (some 50)) 200 true).2.1

/-!
Helper lemmas shared by the claim theorems.
-/

theorem foldl_pickLater_some (l : List ServerMetricRow) (a : ServerMetricRow) :
    ∃ b, l.foldl pickLater (some a) = some b := by
  induction l generalizing a with
  | nil => exact ⟨a, rfl⟩
  | cons h t ih =>
    simp only [List.foldl_cons, pickLater]
    split
    · exact ih h
    · exact ih a

theorem latestServerRow_eq_none (l : List ServerMetricRow) :
    latestServerRow l = none ↔ l = [] := by
  cases l with
  | nil => simp [latestServerRow]
  | cons h t =>
    simp only [latestServerRow, List.foldl_cons, pickLater]
    obtain ⟨b, hb⟩ := foldl_pickLater_some t h
    simp [hb]

theorem foldl_pickLater_spec (l : List ServerMetricRow) (a m : ServerMetricRow)
    (h : l.foldl pickLater (some a) = some m) :
    (m = a ∨ m ∈ l) ∧ a.time ≤ m.time ∧ ∀ s ∈ l, s.time ≤ m.time := by
  induction l generalizing a with
  | nil =>
    simp only [List.foldl_nil, Option.some.injEq] at h
    subst h
    exact ⟨Or.inl rfl, le_refl _, by simp⟩
  | cons h1 t ih =>
    simp only [List.foldl_cons, pickLater] at h
    by_cases hgt : h1.time > a.time
    · rw [if_pos hgt] at h
      obtain ⟨hm, hle, hall⟩ := ih h1 h
      refine ⟨?_, ?_, ?_⟩
      · rcases hm with rfl | hm
        · exact Or.inr (List.mem_cons_self _ _)
        · exact Or.inr (List.mem_cons_of_mem _ hm)
      · exact le_trans (le_of_lt hgt) hle
      · intro s hs
        rcases List.mem_cons.mp hs with rfl | hs
        · exact hle
        · exact hall s hs
    · rw [if_neg hgt] at h
      obtain ⟨hm, hle, hall⟩ := ih a h
      refine ⟨?_, hle, ?_⟩
      · rcases hm with rfl | hm
        · exact Or.inl rfl
        · exact Or.inr (List.mem_cons_of_mem _ hm)
      · intro s hs
        rcases List.mem_cons.mp hs with rfl | hs
        · exact le_trans (le_of_not_lt hgt) hle
        · exact hall s hs

theorem latestServerRow_spec (l : List ServerMetricRow) (m : ServerMetricRow)
    (h : latestServerRow l = some m) :
    m ∈ l ∧ ∀ s ∈ l, s.time ≤ m.time := by
  cases l with
  | nil => simp [latestServerRow] at h
  | cons h1 t =>
    simp only [latestServerRow, List.foldl_cons, pickLater] at h
    obtain ⟨hm, hle, hall⟩ := foldl_pickLater_spec t h1 m h
    refine ⟨?_, ?_⟩
    · rcases hm with rfl | hm
      · exact List.mem_cons_self _ _
      · exact List.mem_cons_of_mem _ hm
    · intro s hs
      rcases List.mem_cons.mp hs with heq | hs
      · exact heq ▸ hle
      · exact hall s hs

theorem foldl_min_le_init (l : List ℚ) (a : ℚ) : l.foldl min a ≤ a := by
  induction l generalizing a with
  | nil => exact le_refl a
  | cons h t ih => exact le_trans (ih (min a h)) (min_le_left a h)

theorem foldl_min_le_mem (l : List ℚ) (x : ℚ) (hx : x ∈ l) (a : ℚ) :
    l.foldl min a ≤ x := by
  induction l generalizing a with
  | nil => cases hx
  | cons h t ih =>
    rcases List.mem_cons.mp hx with rfl | hx
    · exact le_trans (foldl_min_le_init t (min a x)) (min_le_right a x)
    · exact ih hx (min a h)

theorem sqlMin_append_mem (l : List ℚ) (x : ℚ) (hx : x ∈ l) :
    sqlMin (l ++ [x]) = sqlMin l := by
  cases l with
  | nil => cases hx
  | cons v vs =>
    simp only [sqlMin, List.cons_append, List.foldl_append, List.foldl_cons,
      List.foldl_nil, Option.some.injEq]
    rcases List.mem_cons.mp hx with rfl | hx
    · exact min_eq_left (foldl_min_le_init vs x)
    · exact min_eq_left (foldl_min_le_mem vs x hx v)

theorem foldl_max_init_le (l : List ℚ) (a : ℚ) : a ≤ l.foldl max a := by
  induction l generalizing a with
  | nil => exact le_refl a
  | cons h t ih => exact le_trans (le_max_left a h) (ih (max a h))

theorem foldl_max_mem_le (l : List ℚ) (x : ℚ) (hx : x ∈ l) (a : ℚ) :
    x ≤ l.foldl max a := by
  induction l generalizing a with
  | nil => cases hx
  | cons h t ih =>
    rcases List.mem_cons.mp hx with rfl | hx
    · exact le_trans (le_max_right a x) (foldl_max_init_le t (max a x))
    · exact ih hx (max a h)

theorem sqlMax_append_mem (l : List ℚ) (x : ℚ) (hx : x ∈ l) :
    sqlMax (l ++ [x]) = sqlMax l := by
  cases l with
  | nil => cases hx
  | cons v vs =>
    simp only [sqlMax, List.cons_append, List.foldl_append, List.foldl_cons,
      List.foldl_nil, Option.some.injEq]
    rcases List.mem_cons.mp hx with rfl | hx
    · exact max_eq_left (foldl_max_init_le vs x)
    · exact max_eq_left (foldl_max_mem_le vs x hx v)

theorem wsStep_unauth (s : WsState) (m : WsMsg)
    (hs : s.authenticated = false) (hm : m.isValidAuth = false) :
    (wsStep s m).1.authenticated = false ∧
    WsOut.pong ∉ (wsStep s m).2 ∧
    ∀ t r, WsOut.subscribed t r ∉ (wsStep s m).2 := by
  unfold wsStep
  by_cases hc : s.closed = true
  · simp [hc, hs]
  · cases m <;> simp_all [WsMsg.isValidAuth]

theorem wsRun_unauth_no_feed (msgs : List WsMsg) (s : WsState)
    (hs : s.authenticated = false)
    (hmsgs : ∀ m ∈ msgs, m.isValidAuth = false) :
    WsOut.pong ∉ (wsRun s msgs).2 ∧
    ∀ t r, WsOut.subscribed t r ∉ (wsRun s msgs).2 := by
  induction msgs generalizing s with
  | nil => simp [wsRun]
  | cons m ms ih =>
    obtain ⟨h1, h2, h3⟩ :=
      wsStep_unauth s m hs (hmsgs m (List.mem_cons_self m ms))
    obtain ⟨ih1, ih2⟩ :=
      ih (wsStep s m).1 h1 (fun m' hm' => hmsgs m' (List.mem_cons_of_mem m hm'))
    refine ⟨?_, ?_⟩
    · simp only [wsRun, List.mem_append]
      rintro (hpin | hpin)
      · exact h2 hpin
      · exact ih1 hpin
    · intro t r
      simp only [wsRun, List.mem_append]
      rintro (hpin | hpin)
      · exact h3 t r hpin
      · exact ih2 t r hpin

theorem postIngestServer_success (db : Db) (auth : AuthCtx)
    (body : ServerMetricsBody) (now : Int) (pub : Bool)
    (hp : auth.keyPresent = true) (hv : auth.keyValid = true)
    (hval : validServerBody body)
    (hres : ∃ r ∈ db.resources, r.id = body.resourceId ∧
      r.userId = auth.userId ∧ r.rtype = ResourceType.server) :
    postIngestServer db auth body now pub =
      (if pub then IngestResult.ok (body.timestamp.getD now)
       else IngestResult.internalError,
       serverIngestWrites db body now,
       if pub then [serverStreamOfBody body (body.timestamp.getD now)] else []) := by
  unfold postIngestServer
  rw [if_neg (by simp [hp]), if_neg (by simp [hv]), if_neg (not_not_intro hval),
    if_neg (not_not_intro hres)]
  cases pub <;> rfl

/-!
Claim theorems.
-/

/-- C9: a batch ingest request with a valid API key and a metrics array
persists no sample, updates no resource status and publishes nothing — the
database is returned unchanged and the publish list is empty — while
server/website/network entries only bump the `processed` counter and the
route answers ok with processed/errors/total counts. -/
theorem c9_batch_ingest_is_noop (db : Db) (auth : AuthCtx)
    (ms : List BatchEntry)
    (hp : auth.keyPresent = true) (hv : auth.keyValid = true) :
    postIngestBatch db auth (some ms) =
      (BatchResult.ok
        (ms.countP (fun m =>
          decide (m.btype = "server" ∨ m.btype = "website" ∨ m.btype = "network")))
        (ms.length - ms.countP (fun m =>
          decide (m.btype = "server" ∨ m.btype = "website" ∨ m.btype = "network")))
        ms.length,
       db, []) := by
  unfold postIngestBatch
  rw [if_neg (by simp [hp]), if_neg (by simp [hv])]

/-- Witness for C9 at a concrete three-entry batch. -/
theorem c9_batch_ingest_is_noop_witness :
    authOk.keyPresent = true ∧ authOk.keyValid = true ∧
    postIngestBatch dbServer1 authOk
      (some [{ btype := "server" }, { btype := "website" }, { btype := "bogus" }]) =
      (BatchResult.ok
        ([({ btype := "server" } : BatchEntry), { btype := "website" },
          { btype := "bogus" }].countP (fun m =>
          decide (m.btype = "server" ∨ m.btype = "website" ∨ m.btype = "network")))
        (3 - [({ btype := "server" } : BatchEntry), { btype := "website" },
          { btype := "bogus" }].countP (fun m =>
          decide (m.btype = "server" ∨ m.btype = "website" ∨ m.btype = "network")))
        3,
       dbServer1, []) :=
  ⟨rfl, rfl, c9_batch_ingest_is_noop dbServer1 authOk _ rfl rfl⟩

/-- C10: on the `/metrics` websocket no pong is sent and no subscribe is
processed before a successful auth: any non-auth message on an
unauthenticated open connection — a ping included — draws exactly the
`Not authenticated` error and closes the socket, and a whole conversation
holding no valid auth message never produces a pong or a subscribe ack. -/
theorem c10_ws_auth_required :
    (∀ (s : WsState) (m : WsMsg), s.closed = false → s.authenticated = false →
      m.isAuth = false →
      wsStep s m = ({ s with closed := true }, [WsOut.notAuthenticated])) ∧
    (∀ msgs : List WsMsg, (∀ m ∈ msgs, m.isValidAuth = false) →
      WsOut.pong ∉ (wsRun wsInit msgs).2 ∧
      ∀ t r, WsOut.subscribed t r ∉ (wsRun wsInit msgs).2) := by
  constructor
  · intro s m hc hs hm
    unfold wsStep
    cases m <;> simp_all [WsMsg.isAuth]
  · intro msgs hmsgs
    exact wsRun_unauth_no_feed msgs wsInit rfl hmsgs

/-- Witness for C10: a ping before auth on a fresh connection is refused
and closed, and a ping-then-subscribe conversation without auth never
gets a pong or a subscribe ack. -/
theorem c10_ws_auth_required_witness :
    wsInit.closed = false ∧ wsInit.authenticated = false ∧
    WsMsg.ping.isAuth = false ∧
    wsStep wsInit WsMsg.ping = ({ wsInit with closed := true }, [WsOut.notAuthenticated]) ∧
    (WsOut.pong ∉ (wsRun wsInit [WsMsg.ping, WsMsg.subscribe "server" 1]).2 ∧
      ∀ t r, WsOut.subscribed t r ∉ (wsRun wsInit [WsMsg.ping, WsMsg.subscribe "server" 1]).2) :=
  ⟨rfl, rfl, rfl,
    c10_ws_auth_required.1 wsInit WsMsg.ping rfl rfl rfl,
    c10_ws_auth_required.2 [WsMsg.ping, WsMsg.subscribe "server" 1] (by decide)⟩

/-- C5 (amended): the ingestion path performs no alert evaluation at all —
`POST /ingest/server` leaves the incidents and alert-policies tables
untouched in every branch, so two consecutive violating samples produce
zero incidents (in particular they cannot produce a duplicate). -/
theorem c5_ingest_never_touches_incidents (db : Db) (auth : AuthCtx)
    (body : ServerMetricsBody) (now : Int) (pub : Bool) :
    (postIngestServer db auth body now pub).2.1.incidents = db.incidents ∧
    (postIngestServer db auth body now pub).2.1.alertPolicies = db.alertPolicies := by
  unfold postIngestServer serverIngestWrites
  split_ifs <;> exact ⟨rfl, rfl⟩

/-- Counterexample for C5 as frozen: two consecutive samples with cpu 95,
both accepted, against the active `cpuUsagePercent gt 90` policy of the
same resource, with no intervening resolution, leave zero incidents — not
the one active incident the claim requires. -/
theorem c5_two_violations_zero_incidents :
    (postIngestServer dbPolicy authOk (bodyCpu 95 (some 10)) 20 true).1 =
      IngestResult.ok 10 ∧
    (postIngestServer
      (postIngestServer dbPolicy authOk (bodyCpu 95 (some 10)) 20 true).2.1
      authOk (bodyCpu 95 (some 20)) 30 true).1 = IngestResult.ok 20 ∧
    policy1.isActive = true ∧ policy1.metricName = "cpuUsagePercent" ∧
    policy1.condition = "gt" ∧ policy1.threshold < 95 ∧
    (postIngestServer
      (postIngestServer dbPolicy authOk (bodyCpu 95 (some 10)) 20 true).2.1
      authOk (bodyCpu 95 (some 20)) 30 true).2.1.incidents = [] := by
  decide

/-- C1 (amended): after the ownership check both human actions succeed with
200 from ANY current state — the routes enforce no state precondition — and
set the target state and its timestamp unconditionally; in particular a
resolve call on an already-resolved incident succeeds again and overwrites
`resolved_at` with the new call time. -/
theorem c1_actions_ignore_state (db : Db) (userId incidentId : Nat)
    (notes : Option String) (now : Int)
    (hown : ownsIncident db userId incidentId) :
    (postIncidentAcknowledge db userId incidentId notes now).1 =
      IncidentActionResult.ok ∧
    (∀ i ∈ (postIncidentAcknowledge db userId incidentId notes now).2.incidents,
      i.id = incidentId →
        i.state = AlertState.acknowledged ∧ i.acknowledgedAt = some now) ∧
    (postIncidentResolve db userId incidentId notes now).1 =
      IncidentActionResult.ok ∧
    (∀ i ∈ (postIncidentResolve db userId incidentId notes now).2.incidents,
      i.id = incidentId →
        i.state = AlertState.resolved ∧ i.resolvedAt = some now) := by
  unfold postIncidentAcknowledge postIncidentResolve
  rw [if_neg (not_not_intro hown), if_neg (not_not_intro hown)]
  refine ⟨rfl, ?_, rfl, ?_⟩
  · intro i hi hid
    obtain ⟨j, hj, rfl⟩ := List.mem_map.mp hi
    by_cases hjid : j.id = incidentId
    · simp [hjid]
    · simp only [if_neg hjid] at hid ⊢
      exact absurd hid hjid
  · intro i hi hid
    obtain ⟨j, hj, rfl⟩ := List.mem_map.mp hi
    by_cases hjid : j.id = incidentId
    · simp [hjid]
    · simp only [if_neg hjid] at hid ⊢
      exact absurd hid hjid

/-- Witness for C1 (amended) on the already-resolved incident fixture. -/
theorem c1_actions_ignore_state_witness :
    ownsIncident dbResolved 7 2 ∧
    ((postIncidentAcknowledge dbResolved 7 2 none 9).1 =
      IncidentActionResult.ok ∧
    (∀ i ∈ (postIncidentAcknowledge dbResolved 7 2 none 9).2.incidents,
      i.id = 2 → i.state = AlertState.acknowledged ∧ i.acknowledgedAt = some 9) ∧
    (postIncidentResolve dbResolved 7 2 none 9).1 = IncidentActionResult.ok ∧
    (∀ i ∈ (postIncidentResolve dbResolved 7 2 none 9).2.incidents,
      i.id = 2 → i.state = AlertState.resolved ∧ i.resolvedAt = some 9)) :=
  ⟨by decide, c1_actions_ignore_state dbResolved 7 2 none 9 (by decide)⟩

/-- Counterexample for C1 as frozen: resolving the incident that is already
in state `resolved` (resolved at 5) succeeds with 200 — there is no
PreconditionFailed-class failure — and is not a no-op: `resolved_at` moves
from 5 to the second call's time 9. -/
theorem c1_second_resolve_succeeds :
    resolvedIncident.state = AlertState.resolved ∧
    resolvedIncident.resolvedAt = some 5 ∧
    (postIncidentResolve dbResolved 7 2 none 9).1 = IncidentActionResult.ok ∧
    (postIncidentResolve dbResolved 7 2 none 9).2.incidents.map (·.resolvedAt) =
      [some 9] := by
  decide

/-- C2 (amended): when every step up to and including the durable append
succeeds but the live-feed publish fails, the failure IS surfaced to the
caller — the route's catch-all answers 500 `Internal server error`, not
200 — while the already-committed writes (the appended sample, the status
update) remain in place and nothing is published. -/
theorem c2_publish_failure_surfaces_500 (db : Db) (auth : AuthCtx)
    (body : ServerMetricsBody) (now : Int)
    (hp : auth.keyPresent = true) (hv : auth.keyValid = true)
    (hval : validServerBody body)
    (hres : ∃ r ∈ db.resources, r.id = body.resourceId ∧
      r.userId = auth.userId ∧ r.rtype = ResourceType.server) :
    (postIngestServer db auth body now false).1 = IngestResult.internalError ∧
    (postIngestServer db auth body now false).1.code = 500 ∧
    (postIngestServer db auth body now false).2.1 = serverIngestWrites db body now ∧
    (postIngestServer db auth body now false).2.2 = [] := by
  rw [postIngestServer_success db auth body now false hp hv hval hres]
  exact ⟨rfl, rfl, rfl, rfl⟩

/-- Witness for C2 (amended) at a concrete passing request whose publish
step fails. -/
theorem c2_publish_failure_surfaces_500_witness :
    authOk.keyPresent = true ∧ authOk.keyValid = true ∧
    validServerBody (bodyCpu 42 (some 100)) ∧
    (∃ r ∈ dbServer1.resources, r.id = (bodyCpu 42 (some 100)).resourceId ∧
      r.userId = authOk.userId ∧ r.rtype = ResourceType.server) ∧
    ((postIngestServer dbServer1 authOk (bodyCpu 42 (some 100)) 200 false).1 =
      IngestResult.internalError ∧
    (postIngestServer dbServer1 authOk (bodyCpu 42 (some 100)) 200 false).1.code = 500 ∧
    (postIngestServer dbServer1 authOk (bodyCpu 42 (some 100)) 200 false).2.1 =
      serverIngestWrites dbServer1 (bodyCpu 42 (some 100)) 200 ∧
    (postIngestServer dbServer1 authOk (bodyCpu 42 (some 100)) 200 false).2.2 = []) :=
  ⟨rfl, rfl, by decide, by decide,
    c2_publish_failure_surfaces_500 dbServer1 authOk (bodyCpu 42 (some 100)) 200
      rfl rfl (by decide) (by decide)⟩

/-- Counterexample for C2 as frozen: a request that passes authentication,
resource lookup, validation and the durable append, but whose publish step
fails, does not return 200 — it returns the 500 internal error — even
though the sample was durably appended. -/
theorem c2_publish_failure_not_ok :
    (postIngestServer dbServer1 authOk (bodyCpu 42 (some 100)) 200 false).1.code
      = 500 ∧
    (postIngestServer dbServer1 authOk (bodyCpu 42 (some 100)) 200 false).1
      ≠ IngestResult.ok 100 ∧
    (postIngestServer dbServer1 authOk (bodyCpu 42 (some 100)) 200 false).2.1.serverMetrics
      = dbServer1.serverMetrics ++ [serverRowOfBody (bodyCpu 42 (some 100)) 100] := by
  decide

/-- C3 (amended): in the out-of-order scenario (t=100 ingested, then a
valid t=50 sample, both fresh at wall-clock 200) the derived status after
both calls is indeed computed from the t=100 sample's payload — the latest
by timestamp, because `get_resource_status` re-reads the whole table — but
`last_seen_at` is overwritten unconditionally with each arriving sample's
timestamp, so after the second call it has regressed to 50. -/
theorem c3_status_latest_lastseen_regresses (c1 c2 : ℚ)
    (h1a : 0 ≤ c1) (h1b : c1 ≤ 100) (h2a : 0 ≤ c2) (h2b : c2 ≤ 100) :
    (outOfOrderRun c1 c2).resources.map (·.lastSeenAt) = [some 50] ∧
    (outOfOrderRun c1 c2).resources.map (·.status) =
      [serverBands (serverRowOfBody (bodyCpu c1 (some 100)) 100)] := by
  have hval1 : validServerBody (bodyCpu c1 (some 100)) :=
    ⟨h1a, h1b, by norm_num [bodyCpu], by norm_num [bodyCpu],
     by norm_num [bodyCpu], by norm_num [bodyCpu]⟩
  have hval2 : validServerBody (bodyCpu c2 (some 50)) :=
    ⟨h2a, h2b, by norm_num [bodyCpu], by norm_num [bodyCpu],
     by norm_num [bodyCpu], by norm_num [bodyCpu]⟩
  have e1 : (postIngestServer dbServer1 authOk (bodyCpu c1 (some 100)) 200 true).2.1 =
      serverIngestWrites dbServer1 (bodyCpu c1 (some 100)) 200 := by
    rw [postIngestServer_success dbServer1 authOk (bodyCpu c1 (some 100)) 200 true
      rfl rfl hval1 ⟨resServer1, by simp [dbServer1, dbEmpty], rfl, rfl, rfl⟩]
  have hres2 : ∃ r ∈ (serverIngestWrites dbServer1 (bodyCpu c1 (some 100)) 200).resources,
      r.id = (bodyCpu c2 (some 50)).resourceId ∧ r.userId = authOk.userId ∧
      r.rtype = ResourceType.server := by
    simp [serverIngestWrites, dbServer1, dbEmpty, resServer1, bodyCpu, authOk]
  have e2 : (postIngestServer (serverIngestWrites dbServer1 (bodyCpu c1 (some 100)) 200)
      authOk (bodyCpu c2 (some 50)) 200 true).2.1 =
      serverIngestWrites (serverIngestWrites dbServer1 (bodyCpu c1 (some 100)) 200)
        (bodyCpu c2 (some 50)) 200 := by
    rw [postIngestServer_success _ authOk (bodyCpu c2 (some 50)) 200 true
      rfl rfl hval2 hres2]
  unfold outOfOrderRun
  rw [e1, e2]
  constructor
  · simp [serverIngestWrites, dbServer1, dbEmpty, resServer1, bodyCpu]
  · simp [serverIngestWrites, dbServer1, dbEmpty, resServer1, bodyCpu,
      get_resource_status, freshServerRows, latestServerRow, pickLater,
      serverRowOfBody]

/-- Witness for C3 (amended) at cpu values 95 then 10. -/
theorem c3_status_latest_lastseen_regresses_witness :
    (0 : ℚ) ≤ 95 ∧ (95 : ℚ) ≤ 100 ∧ (0 : ℚ) ≤ 10 ∧ (10 : ℚ) ≤ 100 ∧
    ((outOfOrderRun 95 10).resources.map (·.lastSeenAt) = [some 50] ∧
     (outOfOrderRun 95 10).resources.map (·.status) =
       [serverBands (serverRowOfBody (bodyCpu 95 (some 100)) 100)]) :=
  ⟨by decide, by decide, by decide, by decide,
    c3_status_latest_lastseen_regresses 95 10 (by decide) (by decide)
      (by decide) (by decide)⟩

/-- Counterexample for C3 as frozen: after ingesting t=100 the resource's
`last_seen_at` is 100, and after then ingesting the valid earlier sample
t=50 it is 50 — `last_seen_at` regressed to the earlier timestamp instead
of only ever advancing. -/
theorem c3_lastseen_goes_backward :
    (postIngestServer dbServer1 authOk (bodyCpu 95 (some 100)) 200 true).2.1.resources.map
      (·.lastSeenAt) = [some 100] ∧
    (outOfOrderRun 95 10).resources.map (·.lastSeenAt) = [some 50] ∧
    (50 : Int) < 100 := by
  decide

/-- C4 (amended): `POST /metrics/latest` applies no freshness horizon at
all.  Every emitted entry is the latest-by-timestamp sample of its
resource, however old; and conversely every requested, owned server
resource possessing at least one sample — of any age — gets an entry. -/
theorem c4_latest_has_no_freshness_horizon (db : Db) (userId : Nat)
    (isAdmin : Bool) (ids : List Nat) :
    (∀ rid e, (rid, e) ∈ postMetricsLatest db userId isAdmin ids →
      ∃ row, latestServerRow (db.serverMetrics.filter
          (fun s => decide (s.resourceId = rid))) = some row ∧
        row ∈ db.serverMetrics ∧ row.resourceId = rid ∧
        (∀ s ∈ db.serverMetrics, s.resourceId = rid → s.time ≤ row.time) ∧
        e.time = row.time ∧ e.cpuUsagePercent = row.cpuUsagePercent) ∧
    (∀ r ∈ db.resources, r.id ∈ ids → (isAdmin ∨ r.userId = userId) →
      r.rtype = ResourceType.server →
      (∃ s ∈ db.serverMetrics, s.resourceId = r.id) →
      ∃ e, (r.id, e) ∈ postMetricsLatest db userId isAdmin ids) := by
  constructor
  · intro rid e hmem
    simp only [postMetricsLatest] at hmem
    obtain ⟨r, hr, hfr⟩ := List.mem_filterMap.mp hmem
    cases hrow : latestServerRow (db.serverMetrics.filter
        (fun s => decide (s.resourceId = r.id))) with
    | none => rw [hrow] at hfr; cases hfr
    | some row =>
      rw [hrow] at hfr
      have hpair := Option.some.inj hfr
      have hrid : r.id = rid := congrArg Prod.fst hpair
      have he := congrArg Prod.snd hpair
      subst hrid
      obtain ⟨hrowmem, hmax⟩ := latestServerRow_spec _ _ hrow
      have hrowmem' := List.mem_filter.mp hrowmem
      refine ⟨row, hrow, hrowmem'.1, of_decide_eq_true hrowmem'.2, ?_, ?_, ?_⟩
      · intro s hs hsid
        exact hmax s (List.mem_filter.mpr ⟨hs, decide_eq_true hsid⟩)
      · exact (congrArg LatestEntry.time he).symm
      · exact (congrArg LatestEntry.cpuUsagePercent he).symm
  · intro r hr hid hperm hkind hsample
    obtain ⟨s, hs, hsid⟩ := hsample
    have hrvalid : r ∈ db.resources.filter (fun r => decide (r.id ∈ ids ∧
        (isAdmin ∨ r.userId = userId) ∧ r.rtype = ResourceType.server)) :=
      List.mem_filter.mpr ⟨hr, decide_eq_true ⟨hid, hperm, hkind⟩⟩
    cases hrow : latestServerRow (db.serverMetrics.filter
        (fun s => decide (s.resourceId = r.id))) with
    | none =>
      have hnil := (latestServerRow_eq_none _).mp hrow
      have : s ∈ db.serverMetrics.filter (fun s => decide (s.resourceId = r.id)) :=
        List.mem_filter.mpr ⟨hs, decide_eq_true hsid⟩
      rw [hnil] at this
      cases this
    | some row =>
      refine Exists.intro
        ({ name := r.name, rtype := r.rtype,
           cpuUsagePercent := row.cpuUsagePercent,
           memoryUsedMb := row.memoryUsedMb, memoryTotalMb := row.memoryTotalMb,
           diskUsedMb := row.diskUsedMb, diskTotalMb := row.diskTotalMb,
           time := row.time } : LatestEntry) ?_
      simp only [postMetricsLatest]
      exact List.mem_filterMap.mpr ⟨r, hrvalid, by rw [hrow]⟩

/-- Witness for C4 (amended): the stale database (single sample at time 0)
still yields an entry for resource 1. -/
theorem c4_latest_has_no_freshness_horizon_witness :
    resServer1 ∈ staleDb.resources ∧ resServer1.id ∈ [1] ∧
    (false = true ∨ resServer1.userId = 7) ∧
    resServer1.rtype = ResourceType.server ∧
    (∃ s ∈ staleDb.serverMetrics, s.resourceId = resServer1.id) ∧
    ∃ e, (resServer1.id, e) ∈ postMetricsLatest staleDb 7 false [1] :=
  ⟨by decide, by decide, Or.inr rfl, rfl, ⟨rowCpuEx 42 0, by decide, rfl⟩,
    (c4_latest_has_no_freshness_horizon staleDb 7 false [1]).2 resServer1
      (by decide) (by decide) (Or.inr rfl) rfl ⟨rowCpuEx 42 0, by decide, rfl⟩⟩

/-- Counterexample for C4 as frozen: the only sample of resource 1 is at
time 0, far older than any 5-minute freshness horizon relative to
wall-clock 1000 (the fresh-row set is empty), yet `POST /metrics/latest`
still reports resource 1 with that old sample instead of omitting it as
stale. -/
theorem c4_latest_returns_stale_sample :
    (postMetricsLatest staleDb 7 false [1]).map Prod.fst = [1] ∧
    (postMetricsLatest staleDb 7 false [1]).map (fun p => p.2.time) = [0] ∧
    freshServerRows staleDb.serverMetrics 1 1000 = [] := by
  decide

/-- C6: status derivation is a pure function of the latest fresh sample.
For a server, `get_resource_status` yields critical when any of
cpu/memory/disk usage percent exceeds 90, warning when any exceeds 75 (none
exceeding 90), online otherwise, and unknown when no sample lies within the
5-minute freshness horizon.  For website and network resources the ingest
routes write `offline` the moment `isAvailable` is false (no banding); the
repository has no database-resource ingestion path, so no code ever
derives a database status from an availability flag. -/
theorem c6_derive_status_bands :
    (∀ (rows : List ServerMetricRow) (rid : Nat) (now : Int),
      freshServerRows rows rid now = [] →
      get_resource_status rows rid now = ResourceStatus.unknown) ∧
    (∀ (rows : List ServerMetricRow) (rid : Nat) (now : Int) (m : ServerMetricRow),
      latestServerRow (freshServerRows rows rid now) = some m →
      ((90 < m.cpuUsagePercent ∨ 90 < m.memoryUsagePercent ∨
          90 < m.diskUsagePercent) →
        get_resource_status rows rid now = ResourceStatus.critical) ∧
      (m.cpuUsagePercent ≤ 90 → m.memoryUsagePercent ≤ 90 →
        m.diskUsagePercent ≤ 90 →
        ((75 < m.cpuUsagePercent ∨ 75 < m.memoryUsagePercent ∨
            75 < m.diskUsagePercent) →
          get_resource_status rows rid now = ResourceStatus.warning) ∧
        (m.cpuUsagePercent ≤ 75 → m.memoryUsagePercent ≤ 75 →
          m.diskUsagePercent ≤ 75 →
          get_resource_status rows rid now = ResourceStatus.online))) ∧
    (∀ (db : Db) (body : WebsiteMetricsBody) (now : Int),
      body.isAvailable = false →
      (websiteIngestWrites db body now).resources =
        db.resources.map (fun r =>
          if r.id = body.resourceId then
            { r with lastSeenAt := some (body.timestamp.getD now),
                     status := ResourceStatus.offline }
          else r)) ∧
    (∀ (db : Db) (body : NetworkMetricsBody) (now : Int),
      body.isAvailable = false →
      (networkIngestWrites db body now).resources =
        db.resources.map (fun r =>
          if r.id = body.resourceId then
            { r with lastSeenAt := some (body.timestamp.getD now),
                     status := ResourceStatus.offline }
          else r)) := by
  refine ⟨?_, ?_, ?_, ?_⟩
  · intro rows rid now h
    unfold get_resource_status
    rw [h]
    rfl
  · intro rows rid now m h
    have hgs : get_resource_status rows rid now = serverBands m := by
      unfold get_resource_status
      rw [h]
    rw [hgs]
    unfold serverBands
    refine ⟨?_, ?_⟩
    · intro hcrit
      rw [if_pos hcrit]
    · intro hc90 hm90 hd90
      have hncrit : ¬ (90 < m.cpuUsagePercent ∨ 90 < m.memoryUsagePercent ∨
          90 < m.diskUsagePercent) := by
        push_neg
        exact ⟨hc90, hm90, hd90⟩
      refine ⟨?_, ?_⟩
      · intro hwarn
        rw [if_neg hncrit, if_pos hwarn]
      · intro hc75 hm75 hd75
        have hnwarn : ¬ (75 < m.cpuUsagePercent ∨ 75 < m.memoryUsagePercent ∨
            75 < m.diskUsagePercent) := by
          push_neg
          exact ⟨hc75, hm75, hd75⟩
        rw [if_neg hncrit, if_neg hnwarn]
  · intro db body now h
    unfold websiteIngestWrites
    simp [h]
  · intro db body now h
    unfold networkIngestWrites
    simp [h]

/-- Witness for C6 at concrete inputs: an empty table is unknown; a fresh
cpu-95 sample is critical; an unavailable website sample writes offline. -/
theorem c6_derive_status_bands_witness :
    freshServerRows [] 1 200 = [] ∧
    get_resource_status [] 1 200 = ResourceStatus.unknown ∧
    latestServerRow (freshServerRows [rowCpuEx 95 100] 1 200) =
      some (rowCpuEx 95 100) ∧
    ((90 : ℚ) < (rowCpuEx 95 100).cpuUsagePercent ∨
      90 < (rowCpuEx 95 100).memoryUsagePercent ∨
      90 < (rowCpuEx 95 100).diskUsagePercent) ∧
    get_resource_status [rowCpuEx 95 100] 1 200 = ResourceStatus.critical ∧
    (websiteIngestWrites
      { dbEmpty with resources := [{ resServer1 with rtype := ResourceType.website }] }
      { resourceId := 1, statusCode := 500, responseTimeMs := 1,
        dnsTimeMs := none, connectTimeMs := none, tlsTimeMs := none,
        ttfbMs := none, totalTimeMs := 1, contentSizeBytes := none,
        isAvailable := false, errorMessage := none, location := none,
        timestamp := some 100 } 200).resources =
      [({ resServer1 with rtype := ResourceType.website,
                          lastSeenAt := some 100,
                          status := ResourceStatus.offline } : ResourceRow)] :=
  ⟨by decide, (c6_derive_status_bands.1 [] 1 200) (by decide), by decide,
    by decide,
    ((c6_derive_status_bands.2.1 [rowCpuEx 95 100] 1 200 (rowCpuEx 95 100)
      (by decide)).1 (by decide)),
    by
      rw [c6_derive_status_bands.2.2.1
        { dbEmpty with resources := [{ resServer1 with rtype := ResourceType.website }] }
        { resourceId := 1, statusCode := 500, responseTimeMs := 1,
          dnsTimeMs := none, connectTimeMs := none, tlsTimeMs := none,
          ttfbMs := none, totalTimeMs := 1, contentSizeBytes := none,
          isAvailable := false, errorMessage := none, location := none,
          timestamp := some 100 } 200 rfl]
      decide⟩

/-- C7 (amended): the metric store is append-only with no uniqueness
constraint — appending a row whose (resourceId, time) already occur simply
retains both copies — and re-ingesting a literally identical sample leaves
the bucketed `min_cpu` and `max_cpu` aggregates unchanged, though the
`avg` (and count) of the affected bucket may change. -/
theorem c7_duplicates_kept_minmax_stable (rows : List ServerMetricRow)
    (s : ServerMetricRow) (rid : Nat) (b : Int) :
    ((rows ++ [s]).countP
        (fun r => decide (r.resourceId = s.resourceId ∧ r.time = s.time)) =
      rows.countP
        (fun r => decide (r.resourceId = s.resourceId ∧ r.time = s.time)) + 1) ∧
    (s ∈ rows →
      hourMinCpu (rows ++ [s]) rid b = hourMinCpu rows rid b ∧
      hourMaxCpu (rows ++ [s]) rid b = hourMaxCpu rows rid b) := by
  constructor
  · rw [List.countP_append]
    simp
  · intro hs
    have hsplit : hourBucketCpu (rows ++ [s]) rid b =
        hourBucketCpu rows rid b ++ hourBucketCpu [s] rid b := by
      simp [hourBucketCpu, List.filter_append]
    by_cases hpass : s.resourceId = rid ∧ timeBucket 3600 s.time = b
    · have hsingle : hourBucketCpu [s] rid b = [s.cpuUsagePercent] := by
        simp [hourBucketCpu, hpass]
      have hmem : s.cpuUsagePercent ∈ hourBucketCpu rows rid b :=
        List.mem_map_of_mem _ (List.mem_filter.mpr ⟨hs, decide_eq_true hpass⟩)
      constructor
      · unfold hourMinCpu
        rw [hsplit, hsingle]
        exact sqlMin_append_mem _ _ hmem
      · unfold hourMaxCpu
        rw [hsplit, hsingle]
        exact sqlMax_append_mem _ _ hmem
    · have hsingle : hourBucketCpu [s] rid b = [] := by
        simp [hourBucketCpu, hpass]
      constructor
      · unfold hourMinCpu
        rw [hsplit, hsingle, List.append_nil]
      · unfold hourMaxCpu
        rw [hsplit, hsingle, List.append_nil]

/-- Witness for C7 (amended) re-ingesting the cpu-100 sample. -/
theorem c7_duplicates_kept_minmax_stable_witness :
    rowCpuEx 100 10 ∈ [rowCpuEx 0 0, rowCpuEx 100 10] ∧
    (([rowCpuEx 0 0, rowCpuEx 100 10] ++ [rowCpuEx 100 10]).countP
        (fun r => decide (r.resourceId = (rowCpuEx 100 10).resourceId ∧
          r.time = (rowCpuEx 100 10).time)) =
      [rowCpuEx 0 0, rowCpuEx 100 10].countP
        (fun r => decide (r.resourceId = (rowCpuEx 100 10).resourceId ∧
          r.time = (rowCpuEx 100 10).time)) + 1) ∧
    hourMinCpu ([rowCpuEx 0 0, rowCpuEx 100 10] ++ [rowCpuEx 100 10]) 1 0 =
      hourMinCpu [rowCpuEx 0 0, rowCpuEx 100 10] 1 0 ∧
    hourMaxCpu ([rowCpuEx 0 0, rowCpuEx 100 10] ++ [rowCpuEx 100 10]) 1 0 =
      hourMaxCpu [rowCpuEx 0 0, rowCpuEx 100 10] 1 0 :=
  ⟨by decide,
    (c7_duplicates_kept_minmax_stable [rowCpuEx 0 0, rowCpuEx 100 10]
      (rowCpuEx 100 10) 1 0).1,
    (c7_duplicates_kept_minmax_stable [rowCpuEx 0 0, rowCpuEx 100 10]
      (rowCpuEx 100 10) 1 0).2 (by decide)⟩

/-- Counterexample for C7 as frozen: re-ingesting the literally identical
cpu-100 sample changes the bucketed `avg` of its hour bucket (from 50 to
200/3), so bucketed aggregate query results are not left unchanged. -/
theorem c7_reingest_changes_avg :
    rowCpuEx 100 10 ∈ [rowCpuEx 0 0, rowCpuEx 100 10] ∧
    hourAvgCpu ([rowCpuEx 0 0, rowCpuEx 100 10] ++ [rowCpuEx 100 10]) 1 0 ≠
      hourAvgCpu [rowCpuEx 0 0, rowCpuEx 100 10] 1 0 := by
  constructor
  · decide
  · unfold hourAvgCpu hourBucketCpu sqlAvg timeBucket rowCpuEx
    norm_num

/-- C8: the server branch of the range query aggregates only samples with
`startTime <= time <= endTime`, returns its bucket rows in ascending
bucket order, and returns the empty list — not an error — whenever
`startTime > endTime`. -/
theorem c8_range_query_spec (rows : List ServerMetricRow) (rid : Nat)
    (tStart tEnd width : Int) :
    (tEnd < tStart → serverRangeQuery rows rid tStart tEnd width = []) ∧
    List.Sorted (· ≤ ·)
      ((serverRangeQuery rows rid tStart tEnd width).map (·.bucket)) ∧
    (∀ row ∈ serverRangeQuery rows rid tStart tEnd width,
      ∃ s ∈ rows, s.resourceId = rid ∧ tStart ≤ s.time ∧ s.time ≤ tEnd ∧
        timeBucket width s.time = row.bucket) := by
  refine ⟨?_, ?_, ?_⟩
  · intro hlt
    have hnil : rowsInRange rows rid tStart tEnd = [] := by
      apply List.filter_eq_nil_iff.mpr
      intro s hsmem
      simp only [decide_eq_true_eq]
      rintro ⟨-, hge, hle⟩
      omega
    unfold serverRangeQuery
    rw [hnil]
    rfl
  · unfold serverRangeQuery
    rw [List.map_map]
    have hcomp :
        ((fun r : ServerBucketRow => r.bucket) ∘ fun b =>
          ({ bucket := b,
             cpu := sqlAvg ((List.filter
               (fun s => decide (timeBucket width s.time = b))
               (rowsInRange rows rid tStart tEnd)).map (·.cpuUsagePercent)),
             memoryMb := sqlAvg ((List.filter
               (fun s => decide (timeBucket width s.time = b))
               (rowsInRange rows rid tStart tEnd)).map (·.memoryUsedMb)),
             diskMb := sqlAvg ((List.filter
               (fun s => decide (timeBucket width s.time = b))
               (rowsInRange rows rid tStart tEnd)).map (·.diskUsedMb)) }
            : ServerBucketRow)) = fun b => b := rfl
    rw [hcomp, List.map_id']
    exact List.sorted_insertionSort _ _
  · intro row hrow
    unfold serverRangeQuery at hrow
    obtain ⟨b, hb, hfb⟩ := List.mem_map.mp hrow
    have hbucket : row.bucket = b := by rw [← hfb]
    have hb' : b ∈ ((rowsInRange rows rid tStart tEnd).map
        (fun s => timeBucket width s.time)).dedup :=
      (List.perm_insertionSort (· ≤ ·) _).mem_iff.mp hb
    have hb'' := List.mem_dedup.mp hb'
    obtain ⟨s, hsmem, hsb⟩ := List.mem_map.mp hb''
    have hsmem' := List.mem_filter.mp hsmem
    have hprops := of_decide_eq_true hsmem'.2
    exact ⟨s, hsmem'.1, hprops.1, hprops.2.1, hprops.2.2, by rw [hsb, hbucket]⟩

/-- Witness for C8 at a query whose start lies after its end: the result on
a nonempty table is empty, sorted, and covered. -/
theorem c8_range_query_spec_witness :
    ((100 : Int) < 500) ∧
    (serverRangeQuery [rowCpuEx 42 150] 1 500 100 60 = []) ∧
    List.Sorted (· ≤ ·)
      ((serverRangeQuery [rowCpuEx 42 150] 1 500 100 60).map (·.bucket)) ∧
    (∀ row ∈ serverRangeQuery [rowCpuEx 42 150] 1 500 100 60,
      ∃ s ∈ [rowCpuEx 42 150], s.resourceId = 1 ∧ 500 ≤ s.time ∧
        s.time ≤ 100 ∧ timeBucket 60 s.time = row.bucket) :=
  ⟨by decide,
    (c8_range_query_spec [rowCpuEx 42 150] 1 500 100 60).1 (by decide),
    (c8_range_query_spec [rowCpuEx 42 150] 1 500 100 60).2.1,
    (c8_range_query_spec [rowCpuEx 42 150] 1 500 100 60).2.2⟩
